import Mathlib

/-!
Shallow embedding of the AI-image-detection service (src/app.py) and proofs
about its request/response contract.

Modelling conventions:
  * Python numeric values (scores, confidences) are modelled as exact
    rationals; Python `round(x, n)` is modelled as round-half-to-even at
    `n` decimal digits, and Python float rendering inside message strings
    is modelled as fixed-point decimal rendering.
  * The uploaded file object (a seekable byte stream) is modelled as a
    `PyFile` record carrying its bytes and current position; mutation
    (`seek`/`tell`/`read`) is modelled by returning the updated record.
  * The HuggingFace pipeline and PIL decoding are external effects: they
    enter the model as function parameters.  A call that raises an
    exception is modelled as returning `none`.
  * A code path on which an exception escapes the handler (no surrounding
    `try`) is modelled as the `HandlerResult.unhandledError` outcome.
-/

/-- `MAX_FILE_SIZE` from app.py line 30. -/
def MAX_FILE_SIZE : Nat := 5 * 1024 * 1024

/-- `ALLOWED_EXTENSIONS` from app.py line 31 (a set of content types). -/
def ALLOWED_EXTENSIONS : List String := ["image/jpeg", "image/png", "image/webp"]

/-- Round-half-to-even to an integer, the rounding used by Python `round`. -/
def roundHalfEven (q : ℚ) : ℤ :=
  let f := ⌊q⌋
  let r := q - f
  if r < 1/2 then f
  else if r > 1/2 then f + 1
  else if f % 2 = 0 then f else f + 1

/-- Python `round(q, ndigits)` on exact rationals. -/
def pyRound (q : ℚ) (ndigits : Nat) : ℚ :=
  (roundHalfEven (q * 10 ^ ndigits) : ℚ) / 10 ^ ndigits

/-- Fixed-point decimal rendering of a rational with `digits` digits after
the point; models Python float rendering of an already-rounded value
(`f"{pct}"` after `round(..., 1)`, and the `:.2f` format). -/
def fmtFixed (q : ℚ) (digits : Nat) : String :=
  let n : Int := roundHalfEven (q * 10 ^ digits)
  let m : Nat := n.natAbs
  let base : Nat := 10 ^ digits
  let fracStr := toString (m % base)
  let pad := String.mk (List.replicate (digits - fracStr.length) '0')
  (if n < 0 then "-" else "") ++ toString (m / base) ++
    (if digits = 0 then "" else "." ++ pad ++ fracStr)

/-- Python `str.lower()` (ASCII, which covers the model label vocabulary). -/
def pyLower (s : String) : String := String.mk (s.data.map Char.toLower)

/-- Bool-valued substring test on character lists (Python `needle in hay`). -/
def listInfix (needle : List Char) : List Char → Bool
  | [] => needle.isEmpty
  | c :: rest => needle.isPrefixOf (c :: rest) || listInfix needle rest

/-- Python `needle in hay` on strings. -/
def strContains (hay needle : String) : Bool := listInfix needle.data hay.data

/-- An uploaded file as the handler sees it: declared content type,
filename, raw bytes, and the stream position of the underlying buffer. -/
structure PyFile where
  contentType : String
  filename : String
  bytes : List Nat
  pos : Nat
deriving DecidableEq

/-- The message built at app.py line 51 for a disallowed content type. -/
def invalidTypeMsg (ct : String) : String :=
  "Invalid file type \x27" ++ ct ++ "\x27. Only JPG, PNG, WEBP allowed."

/-- The message built at app.py line 56 for an oversized upload. -/
def tooLargeMsg (size : Nat) : String :=
  "File too large (" ++ fmtFixed ((size : ℚ) / 1024 / 1024) 2 ++ " MB). Max is 5 MB."

/-- `validate_image` from app.py lines 48-57.  The returned `PyFile` is the
state of the (mutated-in-place) file object after the call. -/
def validate_image (file : PyFile) : PyFile × Bool × String :=
  if file.contentType ∉ ALLOWED_EXTENSIONS then
    (file, false, invalidTypeMsg file.contentType)
  else
    let atEnd : PyFile := { file with pos := file.bytes.length }
    let size := atEnd.pos
    let rewound : PyFile := { atEnd with pos := 0 }
    if size > MAX_FILE_SIZE then (rewound, false, tooLargeMsg size)
    else (rewound, true, "")

/-- The keyword list of app.py line 115. -/
def AI_KEYWORDS : List String := ["artificial", "fake", "ai", "generated", "synthetic"]

/-- Label normalization, app.py lines 112-118: lowercase the raw label and
test it for the AI keywords. -/
def normalizeLabel (rawLabel : String) : String :=
  if AI_KEYWORDS.any (fun kw => strContains (pyLower rawLabel) kw) then "AI Generated"
  else "Real"

/-- One raw classification result `{label, score}` from the pipeline. -/
structure RawResult where
  label : String
  score : ℚ
deriving DecidableEq

/-- The JSON success payload built at app.py lines 121-125. -/
structure PredictionResponse where
  prediction : String
  confidence : ℚ
  explanation : String
deriving DecidableEq

/-- Template of app.py line 64 (AI, high confidence). -/
def tmplAIHigh (pct : String) : String :=
  "The model is highly confident (" ++ pct ++ "%" ++
    ") this image was created by an AI system. Telltale signs include hyper-smooth textures, unnatural lighting gradients, and structural inconsistencies typical of generative models."

/-- Template of app.py line 66 (AI, middle confidence). -/
def tmplAIMid (pct : String) : String :=
  "The model suspects (" ++ pct ++ "%" ++
    ") this image is AI-generated. Several subtle artifacts such as irregular edges or blended features are characteristic of diffusion or GAN-based synthesis."

/-- Template of app.py line 68 (AI, low confidence). -/
def tmplAILow (pct : String) : String :=
  "The model leans toward AI-generated (" ++ pct ++ "%" ++
    "), but with moderate uncertainty. The image has some synthetic-looking qualities, though it shares traits with real photography too."

/-- Template of app.py line 71 (Real, high confidence). -/
def tmplRealHigh (pct : String) : String :=
  "The model is highly confident (" ++ pct ++ "%" ++
    ") this is a real photograph. Natural noise patterns, authentic lighting, and organic imperfections are consistent with a camera-captured image."

/-- Template of app.py line 73 (Real, middle confidence). -/
def tmplRealMid (pct : String) : String :=
  "The model believes (" ++ pct ++ "%" ++
    ") this is a real image. It exhibits mostly authentic photographic characteristics, with only minor ambiguities."

/-- Template of app.py line 75 (Real, low confidence). -/
def tmplRealLow (pct : String) : String :=
  "The model leans toward real (" ++ pct ++ "%" ++
    "), but is not highly certain. This image sits near the boundary between AI-generated and real photography."

/-- `build_explanation` from app.py lines 60-75. -/
def build_explanation (label : String) (confidence : ℚ) : String :=
  let pct := fmtFixed (pyRound (confidence * 100) 1) 1
  if label = "AI Generated" then
    if confidence ≥ 9/10 then tmplAIHigh pct
    else if confidence ≥ 7/10 then tmplAIMid pct
    else tmplAILow pct
  else
    if confidence ≥ 9/10 then tmplRealHigh pct
    else if confidence ≥ 7/10 then tmplRealMid pct
    else tmplRealLow pct

/-- The percentage string interpolated into every explanation template:
the confidence times 100, rounded to 1 decimal digit, rendered with 1
decimal digit (app.py line 61). -/
def pctString (confidence : ℚ) : String := fmtFixed (pyRound (confidence * 100) 1) 1

/-- Python `max(results, key=lambda x: x["score"])`: `none` on the empty
list (where CPython raises `ValueError`), otherwise the first result
attaining the maximal score. -/
def pyMax (results : List RawResult) : Option RawResult :=
  match results with
  | [] => none
  | x :: xs => some (xs.foldl (fun acc y => if acc.score < y.score then y else acc) x)

/-- app.py lines 111-125: turn the raw pipeline output into the success
payload.  `none` models the uncaught `ValueError` that `max` raises on an
empty result list (this code is outside every `try` block). -/
def processResults (results : List RawResult) : Option PredictionResponse :=
  match pyMax results with
  | none => none
  | some top =>
    let confidence := pyRound top.score 4
    let prediction := normalizeLabel top.label
    some { prediction := prediction
           confidence := pyRound (confidence * 100) 2
           explanation := build_explanation prediction confidence }

/-- One inbound `POST /predict` request: whether the multipart field
`image` is present, and the uploaded file. -/
structure PredictRequest where
  hasImageField : Bool
  file : PyFile

/-- A response body: either `{"error": msg}` or a `PredictionResponse`. -/
inductive RespBody where
  | errBody (msg : String)
  | predBody (resp : PredictionResponse)
deriving DecidableEq

/-- Outcome of one request: an HTTP response produced by the handler, or
an exception escaping the handler (served by the framework as an
unhandled internal error, not by this code). -/
inductive HandlerResult where
  | response (status : Nat) (body : RespBody)
  | unhandledError
deriving DecidableEq

/-- The `/predict` handler, app.py lines 87-127.  `classifier` is the
global pipeline (`none` when startup loading failed); `decode` models
`Image.open(...).convert("RGB")` (`none` = raised); a classifier call
returning `none` models a raised inference exception. -/
def predict {Img : Type} (classifier : Option (Img → Option (List RawResult)))
    (decode : List Nat → Option Img) (req : PredictRequest) : HandlerResult :=
  match classifier with
  | none => .response 503 (.errBody "Model not loaded. Please check server logs.")
  | some classify =>
    if req.hasImageField = false then .response 400 (.errBody "No image file provided.")
    else if req.file.filename = "" then .response 400 (.errBody "Empty filename.")
    else
      match validate_image req.file with
      | (_, false, msg) => .response 422 (.errBody msg)
      | (file, true, _) =>
        let image_bytes := file.bytes.drop file.pos
        match decode image_bytes with
        | none => .response 422 (.errBody "Could not read image. File may be corrupted.")
        | some image =>
          match classify image with
          | none => .response 500 (.errBody "Model inference failed.")
          | some results =>
            match processResults results with
            | none => .unhandledError
            | some resp => .response 200 (.predBody resp)

/-! ### Helper lemmas -/

theorem listInfix_of_infix (needle : List Char) :
    ∀ hay : List Char, needle <:+: hay → listInfix needle hay = true := by
  intro hay
  induction hay with
  | nil =>
    intro h
    rcases h with ⟨s, t, hst⟩
    have : needle = [] := by
      rcases List.append_eq_nil.mp hst with ⟨h1, h2⟩
      exact (List.append_eq_nil.mp h1).2
    simp [listInfix, this]
  | cons c rest ih =>
    intro h
    rcases List.infix_cons_iff.mp h with hpre | hinf
    · simp [listInfix, List.isPrefixOf_iff_prefix.mpr hpre]
    · simp [listInfix, ih hinf]

theorem strContains_of_infix {hay needle : String}
    (h : needle.data <:+: hay.data) : strContains hay needle = true :=
  listInfix_of_infix _ _ h

theorem strContains_mid (a p q c : String) :
    strContains (a ++ p ++ q ++ c) (p ++ q) = true := by
  apply strContains_of_infix
  simp only [String.data_append]
  have : a.data ++ p.data ++ q.data ++ c.data = a.data ++ (p.data ++ q.data) ++ c.data := by
    simp [List.append_assoc]
  rw [this]
  exact List.infix_append _ _ _

theorem roundHalfEven_intCast (n : ℤ) : roundHalfEven (n : ℚ) = n := by
  simp [roundHalfEven]

/-- Rounding the already-4-digit-rounded score to 2 digits after scaling by
100 is the same as rounding the scaled score to 2 digits directly. -/
theorem pyRound_four_then_two (s : ℚ) :
    pyRound (pyRound s 4 * 100) 2 = pyRound (s * 100) 2 := by
  unfold pyRound
  have h1 : (roundHalfEven (s * 10 ^ 4) : ℚ) / 10 ^ 4 * 100 * 10 ^ 2
      = (roundHalfEven (s * 10 ^ 4) : ℚ) := by ring
  have h2 : s * 100 * 10 ^ 2 = s * 10 ^ 4 := by ring
  rw [h1, h2, roundHalfEven_intCast]

/-- The fold inside `pyMax` returns an element of `x :: xs`. -/
theorem pyMaxFold_mem (xs : List RawResult) :
    ∀ x : RawResult,
      xs.foldl (fun acc y => if acc.score < y.score then y else acc) x ∈ x :: xs := by
  induction xs with
  | nil => intro x; simp
  | cons y ys ih =>
    intro x
    simp only [List.foldl_cons]
    by_cases h : x.score < y.score
    · simp only [if_pos h]
      rcases List.mem_cons.mp (ih y) with h' | h'
      · simp [h']
      · right; right; exact h'
    · simp only [if_neg h]
      rcases List.mem_cons.mp (ih x) with h' | h'
      · simp [h']
      · right; right; exact h'

/-- The fold inside `pyMax` dominates every element of `x :: xs`. -/
theorem pyMaxFold_ge (xs : List RawResult) :
    ∀ x r : RawResult, r ∈ x :: xs →
      r.score ≤ (xs.foldl (fun acc y => if acc.score < y.score then y else acc) x).score := by
  induction xs with
  | nil =>
    intro x r hr
    simp at hr
    simp [hr]
  | cons y ys ih =>
    intro x r hr
    simp only [List.foldl_cons]
    rcases List.mem_cons.mp hr with rfl | hr'
    · by_cases h : r.score < y.score
      · simp only [if_pos h]
        exact le_trans (le_of_lt h) (ih y y (by simp))
      · simp only [if_neg h]
        exact ih r r (by simp)
    · rcases List.mem_cons.mp hr' with rfl | hr''
      · by_cases h : x.score < r.score
        · simp only [if_pos h]
          exact ih r r (by simp)
        · simp only [if_neg h]
          exact le_trans (not_lt.mp h) (ih x x (by simp))
      · by_cases h : x.score < y.score
        · simp only [if_pos h]
          exact ih y r (by simp [hr''])
        · simp only [if_neg h]
          exact ih x r (by simp [hr''])

/-! ### Claims -/

/-- C3: validation fails with the InvalidType message exactly when the
declared content type is outside the allow-list, regardless of size; for an
allowed content type it fails with the TooLarge message exactly when the
size strictly exceeds 5 * 1024 * 1024 bytes (so exactly 5 MiB succeeds);
otherwise it succeeds. -/
theorem C3_validate_trichotomy (f : PyFile) :
    (f.contentType ∉ ALLOWED_EXTENSIONS →
      (validate_image f).2 = (false, invalidTypeMsg f.contentType)) ∧
    (f.contentType ∈ ALLOWED_EXTENSIONS → f.bytes.length > MAX_FILE_SIZE →
      (validate_image f).2 = (false, tooLargeMsg f.bytes.length)) ∧
    (f.contentType ∈ ALLOWED_EXTENSIONS → f.bytes.length ≤ MAX_FILE_SIZE →
      (validate_image f).2 = (true, "")) ∧
    ((validate_image f).2.1 = true ↔
      (f.contentType ∈ ALLOWED_EXTENSIONS ∧ f.bytes.length ≤ MAX_FILE_SIZE)) := by
  by_cases hct : f.contentType ∈ ALLOWED_EXTENSIONS
  · by_cases hsz : f.bytes.length > MAX_FILE_SIZE
    · refine ⟨fun h => absurd hct h, fun _ _ => ?_, fun _ h => absurd hsz (not_lt.mpr h), ?_⟩
      · simp [validate_image, hct, hsz]
      · simp [validate_image, hct, hsz, not_le.mpr hsz]
    · refine ⟨fun h => absurd hct h, fun _ h => absurd h hsz, fun _ _ => ?_, ?_⟩
      · simp [validate_image, hct, hsz]
      · simp [validate_image, hct, hsz, hct, not_lt.mp hsz]
  · refine ⟨fun _ => ?_, fun h => absurd h hct, fun h => absurd h hct, ?_⟩
    · simp [validate_image, hct]
    · simp [validate_image, hct]

/-- C3 witness: a 5 MiB `image/png` upload (the boundary size) passes
validation. -/
theorem C3_validate_trichotomy_witness :
    ("image/png" ∈ ALLOWED_EXTENSIONS) ∧
    (List.replicate MAX_FILE_SIZE 0).length ≤ MAX_FILE_SIZE ∧
    (validate_image ⟨"image/png", "a.png", List.replicate MAX_FILE_SIZE 0, 0⟩).2 = (true, "") := by
  refine ⟨by decide, by simp, ?_⟩
  exact (C3_validate_trichotomy ⟨"image/png", "a.png", List.replicate MAX_FILE_SIZE 0, 0⟩).2.2.1
    (by decide) (by simp)

/-- C4: normalization returns "AI Generated" exactly when the lowercased
raw label contains one of the five AI keywords, and "Real" otherwise; the
five example labels of the spec normalize as stated. -/
theorem C4_normalize_keywords (s : String) :
    (normalizeLabel s = "AI Generated" ↔
      (AI_KEYWORDS.any fun kw => strContains (pyLower s) kw) = true) ∧
    (normalizeLabel s = "Real" ↔
      (AI_KEYWORDS.any fun kw => strContains (pyLower s) kw) = false) ∧
    normalizeLabel "AI-generated" = "AI Generated" ∧
    normalizeLabel "fake photo" = "AI Generated" ∧
    normalizeLabel "synthetic art" = "AI Generated" ∧
    normalizeLabel "real" = "Real" ∧
    normalizeLabel "photograph" = "Real" := by
  refine ⟨?_, ?_, by decide, by decide, by decide, by decide, by decide⟩
  · by_cases h : (AI_KEYWORDS.any fun kw => strContains (pyLower s) kw) = true
    · simp [normalizeLabel, h]
    · simp [normalizeLabel, h]
  · by_cases h : (AI_KEYWORDS.any fun kw => strContains (pyLower s) kw) = true
    · simp [normalizeLabel, h]
    · simp [normalizeLabel, h]

/-- C5: on the domain of the claim (confidence in [0,1), label one of the
two normalized values) `build_explanation` returns exactly the template
that the band table selects, and its output contains the confidence
rendered as a percentage with exactly one decimal digit.  Determinism is
inherent: `build_explanation` is a function of (label, confidence) only. -/
theorem C5_compose_bands (label : String) (c : ℚ) (h0 : 0 ≤ c) (h1 : c < 1)
    (hl : label = "AI Generated" ∨ label = "Real") :
    ((label = "AI Generated" → 9/10 ≤ c →
        build_explanation label c = tmplAIHigh (pctString c)) ∧
     (label = "AI Generated" → 7/10 ≤ c → c < 9/10 →
        build_explanation label c = tmplAIMid (pctString c)) ∧
     (label = "AI Generated" → c < 7/10 →
        build_explanation label c = tmplAILow (pctString c)) ∧
     (label = "Real" → 9/10 ≤ c →
        build_explanation label c = tmplRealHigh (pctString c)) ∧
     (label = "Real" → 7/10 ≤ c → c < 9/10 →
        build_explanation label c = tmplRealMid (pctString c)) ∧
     (label = "Real" → c < 7/10 →
        build_explanation label c = tmplRealLow (pctString c))) ∧
    strContains (build_explanation label c) (pctString c ++ "%") = true := by
  have hne : ("Real" : String) ≠ "AI Generated" := by decide
  constructor
  · refine ⟨?_, ?_, ?_, ?_, ?_, ?_⟩
    · rintro rfl h9
      simp [build_explanation, pctString, ge_iff_le, h9]
    · rintro rfl h7 h9
      simp [build_explanation, pctString, ge_iff_le, h7, not_le.mpr h9]
    · rintro rfl hlt
      have h9 : ¬ (9/10 ≤ c) := not_le.mpr (lt_of_lt_of_le hlt (by norm_num : (7:ℚ)/10 ≤ 9/10))
      simp [build_explanation, pctString, ge_iff_le, not_le.mpr hlt, h9]
    · rintro rfl h9
      simp [build_explanation, pctString, ge_iff_le, h9, hne]
    · rintro rfl h7 h9
      simp [build_explanation, pctString, ge_iff_le, h7, not_le.mpr h9, hne]
    · rintro rfl hlt
      have h9 : ¬ (9/10 ≤ c) := not_le.mpr (lt_of_lt_of_le hlt (by norm_num : (7:ℚ)/10 ≤ 9/10))
      simp [build_explanation, pctString, ge_iff_le, hne, not_le.mpr hlt, h9]
  · rcases hl with rfl | rfl
    · by_cases h9 : c ≥ 9/10
      · simp only [build_explanation, pctString, if_pos rfl, if_pos h9]
        exact strContains_mid _ _ _ _
      · by_cases h7 : c ≥ 7/10
        · simp only [build_explanation, pctString, if_pos rfl, if_neg h9, if_pos h7]
          exact strContains_mid _ _ _ _
        · simp only [build_explanation, pctString, if_pos rfl, if_neg h9, if_neg h7]
          exact strContains_mid _ _ _ _
    · by_cases h9 : c ≥ 9/10
      · simp only [build_explanation, pctString, if_neg hne, if_pos h9]
        exact strContains_mid _ _ _ _
      · by_cases h7 : c ≥ 7/10
        · simp only [build_explanation, pctString, if_neg hne, if_neg h9, if_pos h7]
          exact strContains_mid _ _ _ _
        · simp only [build_explanation, pctString, if_neg hne, if_neg h9, if_neg h7]
          exact strContains_mid _ _ _ _

/-- C5 witness: at confidence 0.923 and label "AI Generated" the composer
emits the high-confidence AI template containing "92.3%". -/
theorem C5_compose_bands_witness :
    (0 ≤ (923 : ℚ)/1000 ∧ (923 : ℚ)/1000 < 1 ∧ 9/10 ≤ (923 : ℚ)/1000) ∧
    build_explanation "AI Generated" ((923 : ℚ)/1000) = tmplAIHigh (pctString ((923 : ℚ)/1000)) ∧
    strContains (build_explanation "AI Generated" ((923 : ℚ)/1000))
      (pctString ((923 : ℚ)/1000) ++ "%") = true := by
  have h := C5_compose_bands "AI Generated" ((923 : ℚ)/1000)
    (by norm_num) (by norm_num) (Or.inl rfl)
  exact ⟨⟨by norm_num, by norm_num, by norm_num⟩, h.1.1 rfl (by norm_num), h.2⟩

/-- A nonempty raw result list is processed to a success payload (the
`max` call only raises on the empty list). -/
theorem processResults_ne_nil (results : List RawResult) (h : results ≠ []) :
    ∃ resp, processResults results = some resp := by
  cases results with
  | nil => exact absurd rfl h
  | cons x xs => exact ⟨_, rfl⟩

/-- The normalized label is always one of exactly the two taxonomy values. -/
theorem normalizeLabel_two (s : String) :
    normalizeLabel s = "AI Generated" ∨ normalizeLabel s = "Real" := by
  unfold normalizeLabel
  split
  · exact Or.inl rfl
  · exact Or.inr rfl

/-- `pyRound` at an argument whose scaling is an exact integer. -/
theorem pyRound_int (q : ℚ) (n : Nat) (m : ℤ) (h : q * 10 ^ n = (m : ℚ)) :
    pyRound q n = (m : ℚ) / 10 ^ n := by
  unfold pyRound
  rw [h, roundHalfEven_intCast]

/-- C6: for every nonempty raw result list, the response is built from the
single highest-scoring result: the prediction is its normalized label
(hence one of exactly two values) and the confidence is its score as a
percentage rounded to 2 decimal digits.  The 0.923/"artificial" example of
the spec is included as the final conjunct. -/
theorem C6_top_result (results : List RawResult) (h : results ≠ []) :
    (∃ top resp, pyMax results = some top ∧ top ∈ results ∧
      (∀ r ∈ results, r.score ≤ top.score) ∧
      processResults results = some resp ∧
      resp.prediction = normalizeLabel top.label ∧
      resp.confidence = pyRound (top.score * 100) 2 ∧
      (resp.prediction = "AI Generated" ∨ resp.prediction = "Real")) ∧
    processResults [⟨"artificial", (923 : ℚ)/1000⟩] =
      some ⟨"AI Generated", (923 : ℚ)/10,
        build_explanation "AI Generated" ((923 : ℚ)/1000)⟩ := by
  constructor
  · cases results with
    | nil => exact absurd rfl h
    | cons x xs =>
      exact ⟨_, _, rfl, pyMaxFold_mem xs x, pyMaxFold_ge xs x, rfl, rfl,
        pyRound_four_then_two _, normalizeLabel_two _⟩
  · have hnorm : normalizeLabel "artificial" = "AI Generated" := by decide
    have h4 : pyRound ((923 : ℚ)/1000) 4 = (923 : ℚ)/1000 := by
      rw [pyRound_int ((923 : ℚ)/1000) 4 9230 (by norm_num)]
      norm_num
    have h2 : pyRound ((923 : ℚ)/1000 * 100) 2 = (923 : ℚ)/10 := by
      rw [pyRound_int ((923 : ℚ)/1000 * 100) 2 9230 (by norm_num)]
      norm_num
    simp only [processResults, pyMax, List.foldl_nil]
    rw [hnorm, h4, h2]

/-- C6 witness: the general invariant applied to the concrete single
result [("artificial", 0.923)] of the spec example. -/
theorem C6_top_result_witness :
    ([⟨"artificial", (923 : ℚ)/1000⟩] : List RawResult) ≠ [] ∧
    ((∃ top resp, pyMax [⟨"artificial", (923 : ℚ)/1000⟩] = some top ∧
      top ∈ [⟨"artificial", (923 : ℚ)/1000⟩] ∧
      (∀ r ∈ [(⟨"artificial", (923 : ℚ)/1000⟩ : RawResult)], r.score ≤ top.score) ∧
      processResults [⟨"artificial", (923 : ℚ)/1000⟩] = some resp ∧
      resp.prediction = normalizeLabel top.label ∧
      resp.confidence = pyRound (top.score * 100) 2 ∧
      (resp.prediction = "AI Generated" ∨ resp.prediction = "Real")) ∧
    processResults [⟨"artificial", (923 : ℚ)/1000⟩] =
      some ⟨"AI Generated", (923 : ℚ)/10,
        build_explanation "AI Generated" ((923 : ℚ)/1000)⟩) :=
  ⟨by simp, C6_top_result [⟨"artificial", (923 : ℚ)/1000⟩] (by simp)⟩

/-- C1 (amended): the handler maps each outcome to the status of the
transition table; the success row holds whenever the classifier returned
at least one raw result, while an empty raw result list escapes as an
unhandled error (see the counterexample). -/
theorem C1_status_table {Img : Type} (classifier : Option (Img → Option (List RawResult)))
    (decode : List Nat → Option Img) (req : PredictRequest) :
    (classifier = none →
      predict classifier decode req =
        .response 503 (.errBody "Model not loaded. Please check server logs.")) ∧
    (∀ classify, classifier = some classify → req.hasImageField = false →
      predict classifier decode req = .response 400 (.errBody "No image file provided.")) ∧
    (∀ classify, classifier = some classify → req.hasImageField = true →
      req.file.filename = "" →
      predict classifier decode req = .response 400 (.errBody "Empty filename.")) ∧
    (∀ classify f msg, classifier = some classify → req.hasImageField = true →
      req.file.filename ≠ "" → validate_image req.file = (f, false, msg) →
      predict classifier decode req = .response 422 (.errBody msg)) ∧
    (∀ classify f msg, classifier = some classify → req.hasImageField = true →
      req.file.filename ≠ "" → validate_image req.file = (f, true, msg) →
      decode (f.bytes.drop f.pos) = none →
      predict classifier decode req =
        .response 422 (.errBody "Could not read image. File may be corrupted.")) ∧
    (∀ classify f msg img, classifier = some classify → req.hasImageField = true →
      req.file.filename ≠ "" → validate_image req.file = (f, true, msg) →
      decode (f.bytes.drop f.pos) = some img → classify img = none →
      predict classifier decode req = .response 500 (.errBody "Model inference failed.")) ∧
    (∀ classify f msg img results, classifier = some classify → req.hasImageField = true →
      req.file.filename ≠ "" → validate_image req.file = (f, true, msg) →
      decode (f.bytes.drop f.pos) = some img → classify img = some results →
      results ≠ [] →
      ∃ resp, processResults results = some resp ∧
        predict classifier decode req = .response 200 (.predBody resp)) := by
  refine ⟨?_, ?_, ?_, ?_, ?_, ?_, ?_⟩
  · rintro rfl
    rfl
  · rintro classify rfl himg
    simp [predict, himg]
  · rintro classify rfl himg hfn
    simp [predict, himg, hfn]
  · rintro classify f msg rfl himg hfn hval
    simp only [predict, himg, hfn, Bool.true_eq_false, if_false, if_neg hfn]
    rw [hval]
  · rintro classify f msg rfl himg hfn hval hdec
    simp only [predict, himg, hfn, Bool.true_eq_false, if_false, if_neg hfn]
    rw [hval]
    simp only [hdec]
  · rintro classify f msg img rfl himg hfn hval hdec hcls
    simp only [predict, himg, hfn, Bool.true_eq_false, if_false, if_neg hfn]
    rw [hval]
    simp only [hdec, hcls]
  · rintro classify f msg img results rfl himg hfn hval hdec hcls hne
    obtain ⟨resp, hresp⟩ := processResults_ne_nil results hne
    refine ⟨resp, hresp, ?_⟩
    simp only [predict, himg, hfn, Bool.true_eq_false, if_false, if_neg hfn]
    rw [hval]
    simp only [hdec, hcls, hresp]

/-- C1 counterexample: with every gate passed and an inference call that
returns successfully but with an empty result list, the handler does not
return 200 with a `PredictionResponse`; the uncaught `ValueError` from
`max` (app.py line 111, outside every `try`) escapes instead. -/
theorem C1_status_table_counterexample :
    predict (some fun _ : Unit => some ([] : List RawResult)) (fun _ => some ())
      ⟨true, ⟨"image/png", "a.png", [137], 0⟩⟩ = HandlerResult.unhandledError := by
  rfl

/-- C1 witness: a run of the full pipeline with a one-element result list
reaches the 200 success row. -/
theorem C1_status_table_witness :
    (∃ resp, processResults [⟨"artificial", (923 : ℚ)/1000⟩] = some resp ∧
      predict (some fun _ : Unit => some [⟨"artificial", (923 : ℚ)/1000⟩])
        (fun _ => some ()) ⟨true, ⟨"image/png", "a.png", [137], 0⟩⟩ =
        .response 200 (.predBody resp)) ∧
    predict (none : Option (Unit → Option (List RawResult))) (fun _ => some ())
      ⟨true, ⟨"image/png", "a.png", [137], 0⟩⟩ =
      .response 503 (.errBody "Model not loaded. Please check server logs.") := by
  constructor
  · exact (C1_status_table (some fun _ : Unit => some [⟨"artificial", (923 : ℚ)/1000⟩])
      (fun _ => some ()) ⟨true, ⟨"image/png", "a.png", [137], 0⟩⟩).2.2.2.2.2.2
      _ ⟨"image/png", "a.png", [137], 0⟩ "" () [⟨"artificial", (923 : ℚ)/1000⟩]
      rfl rfl (by decide) (by decide) rfl rfl (by simp)
  · exact (C1_status_table (none : Option (Unit → Option (List RawResult)))
      (fun _ => some ()) ⟨true, ⟨"image/png", "a.png", [137], 0⟩⟩).1 rfl

/-- C7 (amended): every failure in the guarded stages (model unavailable,
missing file, empty filename, validation, decode, inference call) is
converted to a structured JSON error response; provided the classifier
never returns an empty result list, no exception escapes the handler.
The proviso is forced by the counterexample: `max` on an empty result
list raises outside every `try` block. -/
theorem C7_failures_caught {Img : Type} (classifier : Option (Img → Option (List RawResult)))
    (decode : List Nat → Option Img) (req : PredictRequest)
    (hne : ∀ classify img results, classifier = some classify →
      classify img = some results → results ≠ []) :
    predict classifier decode req ≠ HandlerResult.unhandledError := by
  rcases classifier with _ | classify
  · simp [predict]
  · simp only [predict]
    by_cases h1 : req.hasImageField = false
    · simp [h1]
    · rw [if_neg h1]
      by_cases h2 : req.file.filename = ""
      · simp [h2]
      · rw [if_neg h2]
        rcases hv : validate_image req.file with ⟨f, vb, msg⟩
        cases vb
        · simp
        · rcases hd : decode (f.bytes.drop f.pos) with _ | img
          · simp [hd]
          · simp only [hd]
            rcases hc : classify img with _ | results
            · simp
            · obtain ⟨resp, hr⟩ := processResults_ne_nil results (hne classify img results rfl hc)
              simp [hr]

/-- C7 counterexample: a request that passes every gate but whose
inference returns an empty result list ends in an exception escaping the
handler (the uncaught `ValueError` from `max` at app.py line 111),
contradicting "no exception ... propagates to the client as an unhandled
fault" for the empty-result case the claim explicitly names. -/
theorem C7_failures_caught_counterexample :
    predict (some fun _ : Unit => some ([] : List RawResult)) (fun _ => some ())
      ⟨true, ⟨"image/jpeg", "b.jpg", [255, 216], 0⟩⟩ = HandlerResult.unhandledError := by
  rfl

/-- C7 witness: with a classifier that always emits one result, the
handler never lets an exception escape. -/
theorem C7_failures_caught_witness :
    predict (some fun _ : Unit => some [⟨"artificial", (923 : ℚ)/1000⟩]) (fun _ => some ())
      ⟨true, ⟨"image/jpeg", "b.jpg", [255, 216], 0⟩⟩ ≠ HandlerResult.unhandledError := by
  apply C7_failures_caught
  rintro classify img results hcl hres
  injection hcl with hfn
  subst hfn
  injection hres with hr
  subst hr
  simp

/-- C2 (amended): an upload whose size strictly exceeds 5,242,880 bytes is
always rejected, with the TooLarge message when the declared content type
is in the allow-list; when the content type is outside the allow-list the
rejection is the InvalidType message instead (the content-type gate runs
first). -/
theorem C2_size_gate (f : PyFile) (hsz : f.bytes.length > MAX_FILE_SIZE) :
    (f.contentType ∈ ALLOWED_EXTENSIONS →
      (validate_image f).2 = (false, tooLargeMsg f.bytes.length)) ∧
    (f.contentType ∉ ALLOWED_EXTENSIONS →
      (validate_image f).2 = (false, invalidTypeMsg f.contentType)) ∧
    (validate_image f).2.1 = false := by
  by_cases hct : f.contentType ∈ ALLOWED_EXTENSIONS
  · refine ⟨fun _ => ?_, fun h => absurd hct h, ?_⟩
    · simp [validate_image, hct, hsz]
    · simp [validate_image, hct, hsz]
  · refine ⟨fun h => absurd h hct, fun _ => ?_, ?_⟩
    · simp [validate_image, hct]
    · simp [validate_image, hct]

/-- C2 counterexample: a 5,242,881-byte upload declared `image/gif` is
rejected with the InvalidType message, not the TooLarge message, refuting
"the rejection is TooLarge regardless of the declared content type". -/
theorem C2_size_gate_counterexample :
    (List.replicate (MAX_FILE_SIZE + 1) 0).length > MAX_FILE_SIZE ∧
    (validate_image ⟨"image/gif", "a.gif", List.replicate (MAX_FILE_SIZE + 1) 0, 0⟩).2 =
      (false, invalidTypeMsg "image/gif") ∧
    invalidTypeMsg "image/gif" ≠ tooLargeMsg (MAX_FILE_SIZE + 1) := by
  refine ⟨?_, rfl, by decide⟩
  rw [List.length_replicate]
  exact Nat.lt_succ_self _

/-- C2 witness: a 5,242,881-byte upload with an allowed content type is
rejected with the TooLarge message. -/
theorem C2_size_gate_witness :
    (List.replicate (MAX_FILE_SIZE + 1) 0).length > MAX_FILE_SIZE ∧
    ("image/png" ∈ ALLOWED_EXTENSIONS) ∧
    (validate_image ⟨"image/png", "a.png", List.replicate (MAX_FILE_SIZE + 1) 0, 0⟩).2 =
      (false, tooLargeMsg (List.replicate (MAX_FILE_SIZE + 1) 0).length) := by
  have hsz : (List.replicate (MAX_FILE_SIZE + 1) (0 : Nat)).length > MAX_FILE_SIZE := by
    rw [List.length_replicate]
    exact Nat.lt_succ_self _
  exact ⟨hsz, by decide,
    (C2_size_gate ⟨"image/png", "a.png", List.replicate (MAX_FILE_SIZE + 1) 0, 0⟩ hsz).1
      (by decide)⟩

/-- C8: validation never alters the byte content of the upload, and for a
freshly received upload (stream position 0) the file object is returned in
exactly its initial state — in particular the position is back at 0, so the
subsequent `file.read()` sees all the bytes; whenever the size is actually
measured (allowed content type) the position is explicitly rewound to 0. -/
theorem C8_stream_restored (f : PyFile) (h : f.pos = 0) :
    (validate_image f).1 = f ∧
    (∀ g : PyFile, (validate_image g).1.bytes = g.bytes ∧
      (validate_image g).1.contentType = g.contentType ∧
      (validate_image g).1.filename = g.filename) ∧
    (∀ g : PyFile, g.contentType ∈ ALLOWED_EXTENSIONS → (validate_image g).1.pos = 0) := by
  refine ⟨?_, ?_, ?_⟩
  · obtain ⟨ct, fn, bs, p⟩ := f
    have hp : p = 0 := h
    subst hp
    by_cases hct : ct ∈ ALLOWED_EXTENSIONS
    · simp [validate_image, hct]
      split <;> rfl
    · simp [validate_image, hct]
  · intro g
    obtain ⟨ct, fn, bs, p⟩ := g
    by_cases hct : ct ∈ ALLOWED_EXTENSIONS
    · simp [validate_image, hct]
      split <;> simp
    · simp [validate_image, hct]
  · intro g hg
    obtain ⟨ct, fn, bs, p⟩ := g
    simp only at hg
    simp [validate_image, hg]
    split <;> rfl

/-- C8 witness: a fresh small PNG upload is returned by validation in its
exact initial state. -/
theorem C8_stream_restored_witness :
    ((⟨"image/png", "a.png", [1, 2, 3], 0⟩ : PyFile).pos = 0) ∧
    (validate_image ⟨"image/png", "a.png", [1, 2, 3], 0⟩).1 =
      ⟨"image/png", "a.png", [1, 2, 3], 0⟩ :=
  ⟨rfl, (C8_stream_restored ⟨"image/png", "a.png", [1, 2, 3], 0⟩ rfl).1⟩

/-- C9: the handler is a pure function of the request and the injected
model/decoder: two requests carrying the same image bytes, content type
and filename (both with the image field present and a fresh stream)
produce identical results under the same deterministic classifier. -/
theorem C9_idempotent {Img : Type} (classifier : Option (Img → Option (List RawResult)))
    (decode : List Nat → Option Img) (r1 r2 : PredictRequest)
    (h1 : r1.hasImageField = true) (h2 : r2.hasImageField = true)
    (hp1 : r1.file.pos = 0) (hp2 : r2.file.pos = 0)
    (hb : r1.file.bytes = r2.file.bytes)
    (hc : r1.file.contentType = r2.file.contentType)
    (hf : r1.file.filename = r2.file.filename) :
    predict classifier decode r1 = predict classifier decode r2 := by
  obtain ⟨i1, f1⟩ := r1
  obtain ⟨ct1, fn1, b1, p1⟩ := f1
  obtain ⟨i2, f2⟩ := r2
  obtain ⟨ct2, fn2, b2, p2⟩ := f2
  have e1 : i1 = true := h1
  have e2 : i2 = true := h2
  have e3 : p1 = 0 := hp1
  have e4 : p2 = 0 := hp2
  have e5 : b1 = b2 := hb
  have e6 : ct1 = ct2 := hc
  have e7 : fn1 = fn2 := hf
  subst e1; subst e2; subst e3; subst e4; subst e5; subst e6; subst e7
  rfl

/-- C9 witness: the determinism theorem applied to two identical concrete
requests. -/
theorem C9_idempotent_witness :
    predict (some fun _ : Unit => some [⟨"artificial", (923 : ℚ)/1000⟩]) (fun _ => some ())
        ⟨true, ⟨"image/png", "a.png", [7], 0⟩⟩ =
      predict (some fun _ : Unit => some [⟨"artificial", (923 : ℚ)/1000⟩]) (fun _ => some ())
        ⟨true, ⟨"image/png", "a.png", [7], 0⟩⟩ :=
  C9_idempotent _ _ _ _ rfl rfl rfl rfl rfl rfl rfl

/-- C10: gate ordering.  When the model never loaded, every request gets
503 before any request field is inspected (the request here is arbitrary,
including ones with no image field or an invalid file); and inside
validation the content-type gate runs before the size gate, so a file
failing both is reported with the InvalidType message. -/
theorem C10_gate_order {Img : Type} (decode : List Nat → Option Img) (req : PredictRequest)
    (f : PyFile) (hct : f.contentType ∉ ALLOWED_EXTENSIONS)
    (hsz : f.bytes.length > MAX_FILE_SIZE) :
    predict (none : Option (Img → Option (List RawResult))) decode req =
      .response 503 (.errBody "Model not loaded. Please check server logs.") ∧
    (validate_image f).2 = (false, invalidTypeMsg f.contentType) := by
  exact ⟨rfl, by simp [validate_image, hct]⟩

/-- C10 witness: a request with no image field still gets 503 when the
model is unloaded, and an oversized `image/gif` file is reported as
InvalidType. -/
theorem C10_gate_order_witness :
    ("image/gif" ∉ ALLOWED_EXTENSIONS) ∧
    (List.replicate (MAX_FILE_SIZE + 1) 0).length > MAX_FILE_SIZE ∧
    (predict (none : Option (Unit → Option (List RawResult))) (fun _ => some ())
        ⟨false, ⟨"", "", [], 0⟩⟩ =
      .response 503 (.errBody "Model not loaded. Please check server logs.")) ∧
    (validate_image ⟨"image/gif", "x.gif", List.replicate (MAX_FILE_SIZE + 1) 0, 0⟩).2 =
      (false, invalidTypeMsg "image/gif") := by
  have hsz : (List.replicate (MAX_FILE_SIZE + 1) (0 : Nat)).length > MAX_FILE_SIZE := by
    rw [List.length_replicate]
    exact Nat.lt_succ_self _
  have h := C10_gate_order (fun _ : List Nat => some ()) ⟨false, ⟨"", "", [], 0⟩⟩
    ⟨"image/gif", "x.gif", List.replicate (MAX_FILE_SIZE + 1) 0, 0⟩ (by decide) hsz
  exact ⟨by decide, hsz, h.1, h.2⟩
